import Mathlib

/-!
A shallow embedding of the OpenAPI backend for the stone IDL compiler
(file openapi.stoneg.py): the type-to-schema translation engine, the
route-to-path translation and the master-document path table, together
with theorems settling the frozen claims about them.

Modelling conventions:
  - Python dicts become ordered association lists `List (String × JValue)`;
    item assignment `d[k] = v` becomes `dictSet` (replace when the key is
    present, append otherwise), matching insertion-order semantics.
  - The JSON-ish document tree (openapi_typed Schema / Reference / PathItem
    values) becomes the inductive `JValue`.
  - The stone IR data-type classes become the inductive `DataType`. The
    numeric, string and list classes carry their optional constraints as
    `Option Int`. `UserDefined` types (Struct, Union, Alias) carry the
    defining namespace name and the type name, as `typ.namespace.name` and
    `typ.name` do in the source. The constructor `bytes` stands for a stone
    data type outside the set handled by the dispatch chain of
    `type_to_schema_def` (stone has such types, e.g. Bytes), so the final
    fallthrough of the chain is reachable in the model exactly as in the
    source.
  - `raise ValueError(...)` becomes the `Except.error` branch of
    `Except String JValue`; every translation function that can raise
    returns `Except`.
  - The stderr warning printed for Timestamp is an I/O side effect with no
    bearing on the produced document and is not modelled.
-/

set_option linter.unreachableTactic false
set_option linter.unusedTactic false
set_option linter.unnecessarySeqFocus false

/-- A JSON-like document value: the shape of the openapi_typed nodes the
backend builds. Objects are ordered association lists, as Python dicts. -/
inductive JValue where
  | str : String → JValue
  | num : Int → JValue
  | bool : Bool → JValue
  | null : JValue
  | arr : List JValue → JValue
  | obj : List (String × JValue) → JValue
  deriving Repr

/-- Python dict item assignment on an ordered association list: replace the
value when the key is already present, append the pair otherwise. -/
def dictSet (d : List (String × JValue)) (k : String) (v : JValue) :
    List (String × JValue) :=
  if d.any (fun p => p.1 == k) then
    d.map (fun p => if p.1 == k then (k, v) else p)
  else
    d ++ [(k, v)]

/-- Key lookup in an association list (first occurrence, as a Python dict
with unique keys). -/
def dictGet (d : List (String × JValue)) (k : String) : Option JValue :=
  (d.find? (fun p => p.1 == k)).map (fun p => p.2)

/-- Key lookup inside a `JValue.obj`; `none` on any other constructor. -/
def jGet (v : JValue) (k : String) : Option JValue :=
  match v with
  | .obj d => dictGet d k
  | _ => none

/-- The stone IR data types the backend consumes (stone.ir.data_types).
`struct_` carries: defining namespace name, type name, fields
(name, data_type), optional parent type, enumerated subtypes
(tag name, data_type). `union_` carries: defining namespace name, type
name, all_fields (variant name, data_type). `alias_` carries: defining
namespace name, type name, aliased type. `bytes` models a stone data type
outside the dispatch chain of `type_to_schema_def`. -/
inductive DataType where
  | boolean : DataType
  | float32 : Option Int → Option Int → DataType
  | float64 : Option Int → Option Int → DataType
  | int32 : Option Int → Option Int → DataType
  | int64 : Option Int → Option Int → DataType
  | uint32 : Option Int → Option Int → DataType
  | uint64 : Option Int → Option Int → DataType
  | string_ : Option Int → Option Int → DataType
  | timestamp : DataType
  | void : DataType
  | list_ : DataType → Option Int → Option Int → DataType
  | nullable : DataType → DataType
  | struct_ : String → String → List (String × DataType) → Option DataType →
      List (String × DataType) → DataType
  | union_ : String → String → List (String × DataType) → DataType
  | alias_ : String → String → DataType → DataType
  | bytes : DataType
  deriving Repr

/-- `isinstance(typ, data_types.Void)`. -/
def DataType.isVoid : DataType → Bool
  | .void => true
  | _ => false

/-- `isinstance(field.data_type, data_types.Nullable)`. -/
def DataType.isNullable : DataType → Bool
  | .nullable _ => true
  | _ => false

/-- `isinstance(typ, data_types.UserDefined)` together with
`(typ.namespace.name, typ.name)`: Struct, Union and Alias are the
user-defined stone types. -/
def DataType.userDefinedInfo : DataType → Option (String × String)
  | .struct_ tns tname _ _ _ => some (tns, tname)
  | .union_ tns tname _ => some (tns, tname)
  | .alias_ tns tname _ => some (tns, tname)
  | _ => none

/-- `_numeric_to_schema_def`, with the (type, format) pair the dispatch in
`type_to_schema_def` selects passed in: builds the two fixed entries, then
adds `minimum` / `maximum` exactly when `min_value` / `max_value` is set. -/
def _numeric_to_schema_def (ty fmt : String) (min_value max_value : Option Int) :
    JValue :=
  let schema := [("type", JValue.str ty), ("format", JValue.str fmt)]
  let schema := match min_value with
    | some v => dictSet schema "minimum" (JValue.num v)
    | none => schema
  let schema := match max_value with
    | some v => dictSet schema "maximum" (JValue.num v)
    | none => schema
  JValue.obj schema

/-- `_string_to_schema_def`: `{type: string}` plus `minLength` / `maxLength`
exactly when set. -/
def _string_to_schema_def (min_length max_length : Option Int) : JValue :=
  let schema := [("type", JValue.str "string")]
  let schema := match min_length with
    | some v => dictSet schema "minLength" (JValue.num v)
    | none => schema
  let schema := match max_length with
    | some v => dictSet schema "maxLength" (JValue.num v)
    | none => schema
  JValue.obj schema

/-- `_timestamp_to_schema_def`: a bare `{type: string}` (the stderr warning
is not part of the document). -/
def _timestamp_to_schema_def : JValue :=
  JValue.obj [("type", JValue.str "string")]

mutual

/-- `type_to_schema_decl`: the reference form. A user-defined type always
renders as a `$ref` built from the namespace that defines the type
(`typ.namespace.name`), regardless of the namespace being translated; any
other type delegates to the definition form. -/
def type_to_schema_decl (ns : String) (typ : DataType) : Except String JValue :=
  match typ.userDefinedInfo with
  | some (tns, tname) =>
      pure (JValue.obj
        [("$ref", JValue.str (tns ++ ".yaml#/components/schemas/" ++ tname))])
  | none => type_to_schema_def ns typ
termination_by 4 * sizeOf typ + 2
decreasing_by all_goals (simp_wf <;> omega)

/-- `type_to_schema_def`: the definition form, the isinstance dispatch chain
of the source, ending in `raise ValueError(f"Unsupported type: ...")` for a
data type outside the handled set. Note the source maps UInt32 to format
uint64. -/
def type_to_schema_def (ns : String) (typ : DataType) : Except String JValue :=
  match typ with
  | .boolean => pure (JValue.obj [("type", JValue.str "boolean")])
  | .float32 mn mx => pure ( _numeric_to_schema_def "number" "float" mn mx)
  | .float64 mn mx => pure ( _numeric_to_schema_def "number" "double" mn mx)
  | .int32 mn mx => pure ( _numeric_to_schema_def "integer" "int32" mn mx)
  | .int64 mn mx => pure ( _numeric_to_schema_def "integer" "int64" mn mx)
  | .uint32 mn mx => pure ( _numeric_to_schema_def "integer" "uint64" mn mx)
  | .uint64 mn mx => pure ( _numeric_to_schema_def "integer" "uint64" mn mx)
  | .list_ elem mn mx => _list_to_schema_def ns elem mn mx
  | .string_ mn mx => pure (_string_to_schema_def mn mx)
  | .timestamp => pure _timestamp_to_schema_def
  | .void => pure (JValue.obj [])
  | .nullable inner => _nullable_to_schema_def ns inner
  | .struct_ _ _ fields parent subtypes =>
      _struct_to_schema_def ns fields parent subtypes
  | .union_ _ _ all_fields => _union_to_schema_def ns all_fields
  | .alias_ _ _ _ => Except.error "Unsupported type: Alias"
  | .bytes => Except.error "Unsupported type: Bytes"
termination_by 4 * sizeOf typ + 1
decreasing_by all_goals (simp_wf <;> omega)

/-- `_list_to_schema_def`: `{type: array, items: decl(element)}` plus
`minItems` / `maxItems` exactly when set. -/
def _list_to_schema_def (ns : String) (elem : DataType)
    (min_items max_items : Option Int) : Except String JValue := do
  let items ← type_to_schema_decl ns elem
  let schema := [("type", JValue.str "array"), ("items", items)]
  let schema := match min_items with
    | some v => dictSet schema "minItems" (JValue.num v)
    | none => schema
  let schema := match max_items with
    | some v => dictSet schema "maxItems" (JValue.num v)
    | none => schema
  pure (JValue.obj schema)
termination_by 4 * sizeOf elem + 3
decreasing_by all_goals (simp_wf <;> omega)

/-- `_nullable_to_schema_def`: `{allOf: [decl(inner)]}` with
`nullable: true` then assigned on the wrapper. -/
def _nullable_to_schema_def (ns : String) (inner : DataType) :
    Except String JValue := do
  let iv ← type_to_schema_decl ns inner
  pure (JValue.obj [("allOf", JValue.arr [iv]), ("nullable", JValue.bool true)])
termination_by 4 * sizeOf inner + 3
decreasing_by all_goals (simp_wf <;> omega)

/-- `_struct_to_schema_def`: the own object schema (type, properties,
required over the non-Nullable fields); a parent adds a one-element
`allOf` holding `decl(parent)`; a struct with enumerated subtypes then
returns early with the hardcoded single-subtype shortcut of the source
(property key "file", first subtype only) — the envelope code below that
return in the source is unreachable and is not part of the behaviour. -/
def _struct_to_schema_def (ns : String) (fields : List (String × DataType))
    (parent : Option DataType) (subtypes : List (String × DataType)) :
    Except String JValue := do
  let props ← fields_to_props ns fields
  let required := (fields.filter (fun f => ! f.2.isNullable)).map
    (fun f => JValue.str f.1)
  let schema := [("type", JValue.str "object"), ("properties", JValue.obj props),
                 ("required", JValue.arr required)]
  let schema ← match parent with
    | some p => do
        let pv ← type_to_schema_decl ns p
        pure (dictSet schema "allOf" (JValue.arr [pv]))
    | none => pure schema
  match subtypes with
  | (_, dt) :: _ => do
      let fv ← type_to_schema_decl ns dt
      pure (JValue.obj [("type", JValue.str "object"),
                        ("properties", JValue.obj [("file", fv)]),
                        ("required", JValue.arr [JValue.str "file"])])
  | [] => pure (JValue.obj schema)
termination_by 4 * (sizeOf fields + sizeOf parent + sizeOf subtypes) + 3
decreasing_by all_goals (simp_wf <;> omega)

/-- `_union_to_schema_def`: the `.tag` base schema; when any variant is
non-Void, assign `oneOf` over the non-Void variants and the
`discriminator`. -/
def _union_to_schema_def (ns : String) (all_fields : List (String × DataType)) :
    Except String JValue := do
  let schema := [("type", JValue.str "object"),
                 ("properties",
                  JValue.obj [(".tag", JValue.obj [("type", JValue.str "string")])]),
                 ("required", JValue.arr [JValue.str ".tag"])]
  if all_fields.any (fun v => ! v.2.isVoid) then do
    let oneOf ← variants_to_oneOf ns all_fields
    let schema := dictSet schema "oneOf" (JValue.arr oneOf)
    let schema := dictSet schema "discriminator"
      (JValue.obj [("propertyName", JValue.str ".tag")])
    pure (JValue.obj schema)
  else
    pure (JValue.obj schema)
termination_by 4 * sizeOf all_fields + 3
decreasing_by all_goals (simp_wf <;> omega)

/-- The properties comprehension of `_struct_to_schema_def`:
`{field.name: decl(field.data_type) for field in fields}` in field order. -/
def fields_to_props (ns : String) :
    List (String × DataType) → Except String (List (String × JValue))
  | [] => pure []
  | (n, dt) :: rest => do
      let v ← type_to_schema_decl ns dt
      let vs ← fields_to_props ns rest
      pure ((n, v) :: vs)
termination_by l => 4 * sizeOf l
decreasing_by all_goals (simp_wf <;> omega)

/-- The `oneOf` comprehension of `_union_to_schema_def`: one object per
non-Void variant, requiring exactly the property named after the variant
and holding `decl(variant.data_type)`. -/
def variants_to_oneOf (ns : String) :
    List (String × DataType) → Except String (List JValue)
  | [] => pure []
  | (n, dt) :: rest =>
      if dt.isVoid then variants_to_oneOf ns rest
      else do
        let v ← type_to_schema_decl ns dt
        let vs ← variants_to_oneOf ns rest
        pure (JValue.obj [("type", JValue.str "object"),
                          ("properties", JValue.obj [(n, v)]),
                          ("required", JValue.arr [JValue.str n])] :: vs)
termination_by l => 4 * sizeOf l
decreasing_by all_goals (simp_wf <;> omega)

end

/-- A stone route as `route_to_path` reads it: documentation, argument,
result and error data types. The source guards each data type with
`is not None`, so each is an `Option`. -/
structure ApiRoute where
  doc : Option String
  arg_data_type : Option DataType
  result_data_type : Option DataType
  error_data_type : Option DataType

/-- The `requestBody` splice of `route_to_path`:
`{...} if route.arg_data_type is not None and not isinstance(..., Void)
else {}`. -/
def route_request_body (ns : String) (arg : Option DataType) :
    Except String (List (String × JValue)) :=
  match arg with
  | some t =>
      if t.isVoid then pure []
      else do
        let s ← type_to_schema_decl ns t
        pure [("requestBody", JValue.obj
          [("required", JValue.bool true),
           ("content", JValue.obj
             [("application/json", JValue.obj [("schema", s)])])])]
  | none => pure []

/-- The content value of the 200 response of `route_to_path`: the schema
of the result type, or the empty object when the result type is absent or
Void. -/
def route_result_content (ns : String) (res : Option DataType) :
    Except String JValue :=
  match res with
  | some t =>
      if t.isVoid then pure (JValue.obj [])
      else do
        let s ← type_to_schema_decl ns t
        pure (JValue.obj [("application/json", JValue.obj [("schema", s)])])
  | none => pure (JValue.obj [])

/-- The content value of the 409 response of `route_to_path`: the error
envelope, or the empty object when the error type is absent or Void. -/
def route_error_content (ns : String) (err : Option DataType) :
    Except String JValue :=
  match err with
  | some t =>
      if t.isVoid then pure (JValue.obj [])
      else do
        let s ← type_to_schema_decl ns t
        pure (JValue.obj
          [("application/json", JValue.obj
            [("schema", JValue.obj
              [("type", JValue.str "object"),
               ("properties", JValue.obj
                 [("error", s),
                  ("error_summary", JValue.obj
                    [("type", JValue.str "string")])])])])])
  | none => pure (JValue.obj [])

/-- `route_to_path`: one PathItem with a single post operation. The
`requestBody` key is spliced in only when the argument type is present and
not Void; the 200 and 409 responses always carry a `content` key, whose
value is the empty object when the corresponding data type is absent or
Void. The three conditional pieces are the helper functions above, read
in the evaluation order of the source dict literal. -/
def route_to_path (ns : String) (route : ApiRoute) : Except String JValue := do
  let requestBody ← route_request_body ns route.arg_data_type
  let content200 ← route_result_content ns route.result_data_type
  let content409 ← route_error_content ns route.error_data_type
  pure (JValue.obj [("post", JValue.obj
    ([("description", JValue.str (route.doc.getD ""))] ++ requestBody ++
     [("responses", JValue.obj
       [("200", JValue.obj [("description", JValue.str ""),
                            ("content", content200)]),
        ("409", JValue.obj [("description", JValue.str ""),
                            ("content", content409)])])]))])

/-- `route_name_to_path_name`: `/ns/route` for version 1, `/ns/route_vN`
otherwise. -/
def route_name_to_path_name (namespace_name route_name : String)
    (route_version : Nat) : String :=
  let base_path := "/" ++ namespace_name ++ "/" ++ route_name
  if route_version == 1 then base_path
  else base_path ++ "_v" ++ toString route_version

/-- Character-wise body of `escape_path`: Python `str.replace` with the
one-character pattern `/` rewrites each character independently. -/
def escape_path_chars : List Char → String
  | [] => ""
  | c :: rest =>
      (if c = '/' then "~1" else String.singleton c) ++ escape_path_chars rest

/-- `escape_path`: JSON-Pointer escaping of a path name, every `/` replaced
by `~1` (`path.replace("/", "~1")`). -/
def escape_path (path : String) : String :=
  escape_path_chars path.toList

/-- The `paths` table of the master document built by
`OpenApiBackend.generate`: for every namespace (given as its name together
with its (route name, route version) pairs, in iteration order), one entry
keyed by the path name whose value is the pure reference
`ns.yaml#/paths/escaped_path_name`. -/
def master_paths (namespaces : List (String × List (String × Nat))) :
    List (String × JValue) :=
  namespaces.flatMap (fun nsp =>
    nsp.2.map (fun rv =>
      (route_name_to_path_name nsp.1 rv.1 rv.2,
       JValue.obj [("$ref", JValue.str
         (nsp.1 ++ ".yaml#/paths/" ++
          escape_path (route_name_to_path_name nsp.1 rv.1 rv.2)))])))

/-! ## Shared helper lemmas -/

/-- Reduction of an Except bind on an ok value, as do-notation produces it. -/
@[simp] theorem except_bind_ok {α β ε : Type _} (a : α) (f : α → Except ε β) :
    (Except.ok a : Except ε α) >>= f = f a := rfl

/-- Reduction of an Except bind on an error value. -/
@[simp] theorem except_bind_error {α β ε : Type _} (e : ε) (f : α → Except ε β) :
    (Except.error e : Except ε α) >>= f = Except.error e := rfl

/-- pure on Except is ok. -/
@[simp] theorem except_pure_eq {α ε : Type _} (a : α) :
    (pure a : Except ε α) = Except.ok a := rfl

/-- A successful `fields_to_props` run keeps the field names, in order. -/
theorem fields_to_props_map_fst (ns : String) :
    ∀ (fields : List (String × DataType)) (props : List (String × JValue)),
      fields_to_props ns fields = Except.ok props →
      props.map Prod.fst = fields.map Prod.fst := by
  intro fields
  induction fields with
  | nil =>
      intro props h
      rw [fields_to_props] at h
      simp only [except_pure_eq, Except.ok.injEq] at h
      simp [← h]
  | cons f rest ih =>
      intro props h
      obtain ⟨n, dt⟩ := f
      rw [fields_to_props] at h
      cases hd : type_to_schema_decl ns dt with
      | error e => rw [hd] at h; simp at h
      | ok v =>
          rw [hd] at h
          cases hr : fields_to_props ns rest with
          | error e => rw [hr] at h; simp at h
          | ok vs =>
              rw [hr] at h
              simp only [except_bind_ok, except_pure_eq, Except.ok.injEq] at h
              subst h
              simp [ih vs hr]

/-! ## C1: the reference form -/

/-- C1 counterexample: `Metadata` defined in namespace `sharing` and
referenced from within `sharing` itself still renders with the
`sharing.yaml` file prefix, not as the local `#/components/schemas/Metadata`
reference the claim states for the same-namespace case. -/
theorem C1_counterexample :
    type_to_schema_decl "sharing" (DataType.struct_ "sharing" "Metadata" [] none []) =
      Except.ok (JValue.obj
        [("$ref", JValue.str "sharing.yaml#/components/schemas/Metadata")]) ∧
    ¬ type_to_schema_decl "sharing" (DataType.struct_ "sharing" "Metadata" [] none []) =
      Except.ok (JValue.obj
        [("$ref", JValue.str "#/components/schemas/Metadata")]) := by
  constructor
  · rw [type_to_schema_decl]
    rfl
  · rw [type_to_schema_decl]
    intro h
    simp only [DataType.userDefinedInfo, except_pure_eq, Except.ok.injEq,
      JValue.obj.injEq, List.cons.injEq, Prod.mk.injEq, JValue.str.injEq] at h
    exact absurd h.1.2 (by decide)

/-- C1 amended: the reference form returns, for every user-defined type
(Struct, Union or Alias), the reference
`{defining namespace}.yaml#/components/schemas/{Name}` regardless of the
namespace currently being translated, and for every non-user-defined type
the definition-form schema. -/
theorem C1_amended_thm (ns : String) (typ : DataType) :
    (∀ tns tname, typ.userDefinedInfo = some (tns, tname) →
        type_to_schema_decl ns typ = Except.ok (JValue.obj
          [("$ref",
            JValue.str (tns ++ ".yaml#/components/schemas/" ++ tname))])) ∧
    (typ.userDefinedInfo = none →
        type_to_schema_decl ns typ = type_to_schema_def ns typ) := by
  constructor
  · intro tns tname h
    rw [type_to_schema_decl, h]
    rfl
  · intro h
    rw [type_to_schema_decl, h]

/-- C1 witness: the amended statement applied to a cross-namespace
reference and to a structural type. -/
theorem C1_amended_witness :
    type_to_schema_decl "files" (DataType.struct_ "sharing" "Metadata" [] none []) =
      Except.ok (JValue.obj
        [("$ref",
          JValue.str ("sharing" ++ ".yaml#/components/schemas/" ++ "Metadata"))]) ∧
    type_to_schema_decl "files" DataType.boolean =
      type_to_schema_def "files" DataType.boolean :=
  ⟨(C1_amended_thm "files" (DataType.struct_ "sharing" "Metadata" [] none [])).1
      "sharing" "Metadata" rfl,
   (C1_amended_thm "files" DataType.boolean).2 rfl⟩

/-! ## C2: enumerated subtypes -/

/-- C2: evaluation of the definition form at a struct with two enumerated
subtypes: the code returns the hardcoded single-subtype shortcut — an
object with the fixed property key "file" holding only the first subtype
reference — and emits no oneOf or anyOf envelope, so the second subtype
(video) appears nowhere in the output. -/
theorem C2_shortcut_eval :
    type_to_schema_def "ns" (DataType.struct_ "ns" "Base" []
      none [("photo", DataType.struct_ "ns" "Photo" [] none []),
            ("video", DataType.struct_ "ns" "Video" [] none [])]) =
      Except.ok (JValue.obj [("type", JValue.str "object"),
        ("properties", JValue.obj [("file", JValue.obj
          [("$ref", JValue.str "ns.yaml#/components/schemas/Photo")])]),
        ("required", JValue.arr [JValue.str "file"])]) := by
  simp only [type_to_schema_def, _struct_to_schema_def, fields_to_props,
    type_to_schema_decl, DataType.userDefinedInfo, except_bind_ok,
    except_pure_eq]
  rfl

/-! ## C3: numeric types -/

/-- C3: evaluation of the definition form at UInt32: the emitted format is
uint64, not the uint32 the claim states; the minimum key appears when the
constraint is set and is absent otherwise. -/
theorem C3_uint32_eval :
    type_to_schema_def "ns" (DataType.uint32 none none) =
      Except.ok (JValue.obj
        [("type", JValue.str "integer"), ("format", JValue.str "uint64")]) ∧
    type_to_schema_def "ns" (DataType.uint32 (some 0) (some 7)) =
      Except.ok (JValue.obj
        [("type", JValue.str "integer"), ("format", JValue.str "uint64"),
         ("minimum", JValue.num 0), ("maximum", JValue.num 7)]) ∧
    ¬ JValue.str "uint64" = JValue.str "uint32" := by
  refine ⟨?_, ?_, by simp⟩
  · rw [type_to_schema_def]
    rfl
  · rw [type_to_schema_def]
    rfl

/-! ## C6: nullable types -/

/-- C6: the definition form of a Nullable type is the allOf wrapper around
the reference form of the inner type, with nullable true set on the
wrapper itself, never merged into the inner schema. -/
theorem C6_nullable_allOf (ns : String) (inner : DataType) (iv : JValue)
    (h : type_to_schema_decl ns inner = Except.ok iv) :
    type_to_schema_def ns (DataType.nullable inner) =
      Except.ok (JValue.obj
        [("allOf", JValue.arr [iv]), ("nullable", JValue.bool true)]) := by
  rw [type_to_schema_def, _nullable_to_schema_def, h]
  rfl

/-- C6 witness: the wrapper form at a concrete user-defined inner type. -/
theorem C6_nullable_allOf_witness :
    type_to_schema_def "ns" (DataType.nullable (DataType.struct_ "ns" "T" [] none [])) =
      Except.ok (JValue.obj
        [("allOf", JValue.arr
            [JValue.obj
              [("$ref",
                JValue.str ("ns" ++ ".yaml#/components/schemas/" ++ "T"))]]),
         ("nullable", JValue.bool true)]) :=
  C6_nullable_allOf "ns" (DataType.struct_ "ns" "T" [] none []) _
    (by rw [type_to_schema_decl]; rfl)

/-! ## C10: the unsupported-type fallthrough -/

/-- C10: a data type outside the dispatch chain (modelled by `bytes`, and
by Alias, which the definition form does not handle either) makes the
definition form return the fatal error naming the offending type; no
schema is produced for it. -/
theorem C10_unsupported_fatal (ns : String) :
    type_to_schema_def ns DataType.bytes =
      Except.error "Unsupported type: Bytes" ∧
    (type_to_schema_def ns DataType.bytes).toOption = none ∧
    type_to_schema_def ns (DataType.alias_ "other" "A" DataType.boolean) =
      Except.error "Unsupported type: Alias" := by
  refine ⟨by rw [type_to_schema_def], ?_, by rw [type_to_schema_def]⟩
  rw [type_to_schema_def]
  rfl

/-! ## C5: struct parent wrapping -/

/-- C5 counterexample: a struct with one String field and a parent. The
code keeps the own object schema at top level and appends a one-element
allOf holding only the parent reference; it does not produce the claimed
two-element `allOf: [own_schema, parent_ref]` wrapper. -/
theorem C5_counterexample :
    type_to_schema_def "ns" (DataType.struct_ "ns" "S"
        [("x", DataType.string_ none none)]
        (some (DataType.struct_ "ns" "P" [] none [])) []) =
      Except.ok (JValue.obj
        [("type", JValue.str "object"),
         ("properties", JValue.obj [("x", JValue.obj [("type", JValue.str "string")])]),
         ("required", JValue.arr [JValue.str "x"]),
         ("allOf", JValue.arr
           [JValue.obj [("$ref", JValue.str "ns.yaml#/components/schemas/P")]])]) ∧
    ¬ type_to_schema_def "ns" (DataType.struct_ "ns" "S"
        [("x", DataType.string_ none none)]
        (some (DataType.struct_ "ns" "P" [] none [])) []) =
      Except.ok (JValue.obj
        [("allOf", JValue.arr
          [JValue.obj
            [("type", JValue.str "object"),
             ("properties", JValue.obj [("x", JValue.obj [("type", JValue.str "string")])]),
             ("required", JValue.arr [JValue.str "x"])],
           JValue.obj [("$ref", JValue.str "ns.yaml#/components/schemas/P")]])]) := by
  have h1 : type_to_schema_def "ns" (DataType.struct_ "ns" "S"
      [("x", DataType.string_ none none)]
      (some (DataType.struct_ "ns" "P" [] none [])) []) =
      Except.ok (JValue.obj
        [("type", JValue.str "object"),
         ("properties", JValue.obj [("x", JValue.obj [("type", JValue.str "string")])]),
         ("required", JValue.arr [JValue.str "x"]),
         ("allOf", JValue.arr
           [JValue.obj [("$ref", JValue.str "ns.yaml#/components/schemas/P")]])]) := by
    simp only [type_to_schema_def, _struct_to_schema_def, fields_to_props,
      type_to_schema_decl, DataType.userDefinedInfo, _string_to_schema_def,
      except_bind_ok, except_pure_eq]
    rfl
  refine ⟨h1, ?_⟩
  rw [h1]
  simp

/-- C5 amended: a struct with a parent (and no enumerated subtypes) keeps
its own object schema at top level — type, properties and required — and
gains an `allOf` key holding the single-element list
`[translate_reference(parent)]`; the own schema is not moved inside the
allOf. -/
theorem C5_amended_thm (ns tns tname : String) (fields : List (String × DataType))
    (p : DataType) (props : List (String × JValue)) (pv : JValue)
    (hf : fields_to_props ns fields = Except.ok props)
    (hp : type_to_schema_decl ns p = Except.ok pv) :
    type_to_schema_def ns (DataType.struct_ tns tname fields (some p) []) =
      Except.ok (JValue.obj
        [("type", JValue.str "object"),
         ("properties", JValue.obj props),
         ("required", JValue.arr ((fields.filter (fun f => ! f.2.isNullable)).map
            (fun f => JValue.str f.1))),
         ("allOf", JValue.arr [pv])]) := by
  simp only [type_to_schema_def, _struct_to_schema_def, hf, hp,
    except_bind_ok, except_pure_eq]
  rfl

/-- C5 witness: the amended statement at a one-field struct with parent P. -/
theorem C5_amended_witness :
    type_to_schema_def "ns" (DataType.struct_ "ns" "S"
        [("x", DataType.string_ none none)]
        (some (DataType.struct_ "ns" "P" [] none [])) []) =
      Except.ok (JValue.obj
        [("type", JValue.str "object"),
         ("properties", JValue.obj [("x", JValue.obj [("type", JValue.str "string")])]),
         ("required", JValue.arr
            (([("x", DataType.string_ none none)].filter
                (fun f => ! f.2.isNullable)).map (fun f => JValue.str f.1))),
         ("allOf", JValue.arr
           [JValue.obj
             [("$ref", JValue.str ("ns" ++ ".yaml#/components/schemas/" ++ "P"))]])]) :=
  C5_amended_thm "ns" "ns" "S" [("x", DataType.string_ none none)]
    (DataType.struct_ "ns" "P" [] none [])
    [("x", JValue.obj [("type", JValue.str "string")])]
    (JValue.obj [("$ref", JValue.str ("ns" ++ ".yaml#/components/schemas/" ++ "P"))])
    (by simp only [fields_to_props, type_to_schema_decl, DataType.userDefinedInfo,
          type_to_schema_def, _string_to_schema_def, except_bind_ok, except_pure_eq] <;>
        rfl)
    (by rw [type_to_schema_decl] <;> rfl)

/-! ## C7: struct required and properties -/

/-- C7 counterexample: a struct with field x and one enumerated subtype.
The translated schema is the single-subtype shortcut: its properties hold
only the hardcoded key "file" (no entry for the field x) and its required
list is ["file"], not the non-Nullable field names. -/
theorem C7_counterexample :
    type_to_schema_def "ns" (DataType.struct_ "ns" "S"
        [("x", DataType.string_ none none)] none
        [("t", DataType.struct_ "ns" "T" [] none [])]) =
      Except.ok (JValue.obj
        [("type", JValue.str "object"),
         ("properties", JValue.obj
           [("file", JValue.obj [("$ref", JValue.str "ns.yaml#/components/schemas/T")])]),
         ("required", JValue.arr [JValue.str "file"])]) ∧
    ((jGet (JValue.obj
        [("type", JValue.str "object"),
         ("properties", JValue.obj
           [("file", JValue.obj [("$ref", JValue.str "ns.yaml#/components/schemas/T")])]),
         ("required", JValue.arr [JValue.str "file"])]) "properties").map
      (fun props => jGet props "x")) = some none ∧
    ¬ jGet (JValue.obj
        [("type", JValue.str "object"),
         ("properties", JValue.obj
           [("file", JValue.obj [("$ref", JValue.str "ns.yaml#/components/schemas/T")])]),
         ("required", JValue.arr [JValue.str "file"])]) "required" =
      some (JValue.arr [JValue.str "x"]) := by
  refine ⟨?_, by simp [jGet, dictGet], by simp [jGet, dictGet]⟩
  simp only [type_to_schema_def, _struct_to_schema_def, fields_to_props,
    type_to_schema_decl, DataType.userDefinedInfo, _string_to_schema_def,
    except_bind_ok, except_pure_eq]
  rfl

/-- C7 amended: for every struct without enumerated subtypes (with any
number of Nullable fields and regardless of parent), the translated
object schema has required exactly the names of the non-Nullable fields
and one properties entry per field, keyed by field name, in order. -/
theorem C7_amended_thm (ns tns tname : String) (fields : List (String × DataType))
    (parent : Option DataType) (v : JValue)
    (h : type_to_schema_def ns (DataType.struct_ tns tname fields parent []) =
      Except.ok v) :
    jGet v "required" =
      some (JValue.arr ((fields.filter (fun f => ! f.2.isNullable)).map
        (fun f => JValue.str f.1))) ∧
    ∃ props, jGet v "properties" = some (JValue.obj props) ∧
      props.map Prod.fst = fields.map Prod.fst := by
  simp only [type_to_schema_def, _struct_to_schema_def] at h
  cases hf : fields_to_props ns fields with
  | error e => rw [hf] at h; simp at h
  | ok props =>
      rw [hf] at h
      simp only [except_bind_ok] at h
      cases parent with
      | none =>
          dsimp only at h
          simp only [except_bind_ok, except_pure_eq, Except.ok.injEq] at h
          subst h
          refine ⟨by simp [jGet, dictGet], props, by simp [jGet, dictGet],
            fields_to_props_map_fst ns fields props hf⟩
      | some p =>
          dsimp only at h
          cases hp : type_to_schema_decl ns p with
          | error e =>
              simp only [hp, except_bind_error] at h
              exact absurd h (by simp)
          | ok pv =>
              simp only [hp, except_bind_ok, except_pure_eq, Except.ok.injEq] at h
              subst h
              refine ⟨by simp [dictSet, jGet, dictGet], props,
                by simp [dictSet, jGet, dictGet],
                fields_to_props_map_fst ns fields props hf⟩

/-- C7 witness: the amended statement at a struct with one required and
one Nullable field. -/
theorem C7_amended_witness :
    jGet (JValue.obj
      [("type", JValue.str "object"),
       ("properties", JValue.obj
         [("a", JValue.obj [("type", JValue.str "string")]),
          ("b", JValue.obj
            [("allOf", JValue.arr [JValue.obj [("type", JValue.str "boolean")]]),
             ("nullable", JValue.bool true)])]),
       ("required", JValue.arr [JValue.str "a"])]) "required" =
      some (JValue.arr (([("a", DataType.string_ none none),
          ("b", DataType.nullable DataType.boolean)].filter
            (fun f => ! f.2.isNullable)).map (fun f => JValue.str f.1))) ∧
    ∃ props, jGet (JValue.obj
      [("type", JValue.str "object"),
       ("properties", JValue.obj
         [("a", JValue.obj [("type", JValue.str "string")]),
          ("b", JValue.obj
            [("allOf", JValue.arr [JValue.obj [("type", JValue.str "boolean")]]),
             ("nullable", JValue.bool true)])]),
       ("required", JValue.arr [JValue.str "a"])]) "properties" =
        some (JValue.obj props) ∧
      props.map Prod.fst = [("a", DataType.string_ none none),
        ("b", DataType.nullable DataType.boolean)].map Prod.fst :=
  C7_amended_thm "ns" "ns" "S"
    [("a", DataType.string_ none none), ("b", DataType.nullable DataType.boolean)]
    none _
    (by simp only [type_to_schema_def, _struct_to_schema_def, fields_to_props,
          _nullable_to_schema_def, type_to_schema_decl, DataType.userDefinedInfo,
          _string_to_schema_def, except_bind_ok, except_pure_eq]
        rfl)

/-! ## C8: union schemas -/

/-- A successful `variants_to_oneOf` run pairs the non-Void variants, in
order and each exactly once, with the single-property object schemas the
comprehension builds for them. -/
theorem variants_to_oneOf_shape (ns : String) :
    ∀ (vs : List (String × DataType)) (items : List JValue),
      variants_to_oneOf ns vs = Except.ok items →
      List.Forall₂ (fun (p : String × DataType) (j : JValue) =>
        ∃ s, type_to_schema_decl ns p.2 = Except.ok s ∧
          j = JValue.obj [("type", JValue.str "object"),
                          ("properties", JValue.obj [(p.1, s)]),
                          ("required", JValue.arr [JValue.str p.1])])
        (vs.filter (fun p => ! p.2.isVoid)) items := by
  intro vs
  induction vs with
  | nil =>
      intro items h
      rw [variants_to_oneOf] at h
      simp only [except_pure_eq, Except.ok.injEq] at h
      subst h
      simp
  | cons p rest ih =>
      intro items h
      obtain ⟨n, dt⟩ := p
      rw [variants_to_oneOf] at h
      cases hvd : dt.isVoid with
      | true =>
          rw [hvd] at h
          simp only [if_true] at h
          simpa [hvd] using ih items h
      | false =>
          rw [hvd] at h
          simp only [Bool.false_eq_true, if_false] at h
          cases hs : type_to_schema_decl ns dt with
          | error e =>
              simp only [hs, except_bind_error] at h
              exact absurd h (by simp)
          | ok s =>
              simp only [hs, except_bind_ok] at h
              cases hr : variants_to_oneOf ns rest with
              | error e =>
                  simp only [hr, except_bind_error] at h
                  exact absurd h (by simp)
              | ok vs2 =>
                  simp only [hr, except_bind_ok, except_pure_eq,
                    Except.ok.injEq] at h
                  subst h
                  simp only [List.filter_cons, hvd]
                  exact List.Forall₂.cons ⟨s, hs, rfl⟩ (ih vs2 hr)

/-- C8: every translated union schema is an object with the required
string property .tag; when all variants are Void no oneOf and no
discriminator key is present; otherwise oneOf pairs the non-Void variants,
in order and each exactly once, with their single-property object
schemas, and the discriminator names .tag. -/
theorem C8_union_schema (ns tns tname : String)
    (all_fields : List (String × DataType)) (v : JValue)
    (h : type_to_schema_def ns (DataType.union_ tns tname all_fields) =
      Except.ok v) :
    jGet v "type" = some (JValue.str "object") ∧
    jGet v "properties" = some (JValue.obj
      [(".tag", JValue.obj [("type", JValue.str "string")])]) ∧
    jGet v "required" = some (JValue.arr [JValue.str ".tag"]) ∧
    (all_fields.all (fun p => p.2.isVoid) = true →
        jGet v "oneOf" = none ∧ jGet v "discriminator" = none) ∧
    (all_fields.all (fun p => p.2.isVoid) = false →
        ∃ items, jGet v "oneOf" = some (JValue.arr items) ∧
          jGet v "discriminator" = some (JValue.obj
            [("propertyName", JValue.str ".tag")]) ∧
          List.Forall₂ (fun (p : String × DataType) (j : JValue) =>
            ∃ s, type_to_schema_decl ns p.2 = Except.ok s ∧
              j = JValue.obj [("type", JValue.str "object"),
                              ("properties", JValue.obj [(p.1, s)]),
                              ("required", JValue.arr [JValue.str p.1])])
            (all_fields.filter (fun p => ! p.2.isVoid)) items) := by
  simp only [type_to_schema_def, _union_to_schema_def] at h
  cases hc : all_fields.any (fun p => ! p.2.isVoid) with
  | false =>
      rw [hc] at h
      simp only [Bool.false_eq_true, if_false, except_pure_eq,
        Except.ok.injEq] at h
      subst h
      have hall : all_fields.all (fun p => p.2.isVoid) = true := by
        simp only [List.any_eq_false] at hc
        simp only [List.all_eq_true]
        intro x hx
        have := hc x hx
        simpa using this
      refine ⟨by simp [jGet, dictGet], by simp [jGet, dictGet],
        by simp [jGet, dictGet], ?_, ?_⟩
      · intro _
        exact ⟨by simp [jGet, dictGet], by simp [jGet, dictGet]⟩
      · intro hfalse
        rw [hall] at hfalse
        cases hfalse
  | true =>
      rw [hc] at h
      simp only [if_true] at h
      cases hoo : variants_to_oneOf ns all_fields with
      | error e =>
          simp only [hoo, except_bind_error] at h
          exact absurd h (by simp)
      | ok items =>
          simp only [hoo, except_bind_ok, except_pure_eq,
            Except.ok.injEq] at h
          subst h
          have hnotall : all_fields.all (fun p => p.2.isVoid) = false := by
        
            simp only [List.any_eq_true] at hc
            obtain ⟨x, hx, hxv⟩ := hc
            simp only [List.all_eq_false]
            exact ⟨x, hx, by simpa using hxv⟩
      
          refine ⟨by simp [dictSet, jGet, dictGet],
            by simp [dictSet, jGet, dictGet],
            by simp [dictSet, jGet, dictGet], ?_, ?_⟩
          · intro htrue
            rw [hnotall] at htrue
            cases htrue
          · intro _
            exact ⟨items, by simp [dictSet, jGet, dictGet],
              by simp [dictSet, jGet, dictGet],
              variants_to_oneOf_shape ns all_fields items hoo⟩

/-- C8 witness: the union statement at a two-variant union with one Void
and one String variant. -/
theorem C8_union_schema_witness :
    jGet (JValue.obj
      [("type", JValue.str "object"),
       ("properties", JValue.obj [(".tag", JValue.obj [("type", JValue.str "string")])]),
       ("required", JValue.arr [JValue.str ".tag"]),
       ("oneOf", JValue.arr [JValue.obj
          [("type", JValue.str "object"),
           ("properties", JValue.obj [("b", JValue.obj [("type", JValue.str "string")])]),
           ("required", JValue.arr [JValue.str "b"])]]),
       ("discriminator", JValue.obj [("propertyName", JValue.str ".tag")])])
      "type" = some (JValue.str "object") ∧
    jGet (JValue.obj
      [("type", JValue.str "object"),
       ("properties", JValue.obj [(".tag", JValue.obj [("type", JValue.str "string")])]),
       ("required", JValue.arr [JValue.str ".tag"]),
       ("oneOf", JValue.arr [JValue.obj
          [("type", JValue.str "object"),
           ("properties", JValue.obj [("b", JValue.obj [("type", JValue.str "string")])]),
           ("required", JValue.arr [JValue.str "b"])]]),
       ("discriminator", JValue.obj [("propertyName", JValue.str ".tag")])])
      "properties" = some (JValue.obj
        [(".tag", JValue.obj [("type", JValue.str "string")])]) ∧
    jGet (JValue.obj
      [("type", JValue.str "object"),
       ("properties", JValue.obj [(".tag", JValue.obj [("type", JValue.str "string")])]),
       ("required", JValue.arr [JValue.str ".tag"]),
       ("oneOf", JValue.arr [JValue.obj
          [("type", JValue.str "object"),
           ("properties", JValue.obj [("b", JValue.obj [("type", JValue.str "string")])]),
           ("required", JValue.arr [JValue.str "b"])]]),
       ("discriminator", JValue.obj [("propertyName", JValue.str ".tag")])])
      "required" = some (JValue.arr [JValue.str ".tag"]) ∧
    ([("a", DataType.void), ("b", DataType.string_ none none)].all
        (fun p => p.2.isVoid) = true →
      jGet (JValue.obj
        [("type", JValue.str "object"),
         ("properties", JValue.obj [(".tag", JValue.obj [("type", JValue.str "string")])]),
         ("required", JValue.arr [JValue.str ".tag"]),
         ("oneOf", JValue.arr [JValue.obj
            [("type", JValue.str "object"),
             ("properties", JValue.obj [("b", JValue.obj [("type", JValue.str "string")])]),
             ("required", JValue.arr [JValue.str "b"])]]),
         ("discriminator", JValue.obj [("propertyName", JValue.str ".tag")])])
        "oneOf" = none ∧
      jGet (JValue.obj
        [("type", JValue.str "object"),
         ("properties", JValue.obj [(".tag", JValue.obj [("type", JValue.str "string")])]),
         ("required", JValue.arr [JValue.str ".tag"]),
         ("oneOf", JValue.arr [JValue.obj
            [("type", JValue.str "object"),
             ("properties", JValue.obj [("b", JValue.obj [("type", JValue.str "string")])]),
             ("required", JValue.arr [JValue.str "b"])]]),
         ("discriminator", JValue.obj [("propertyName", JValue.str ".tag")])])
        "discriminator" = none) ∧
    ([("a", DataType.void), ("b", DataType.string_ none none)].all
        (fun p => p.2.isVoid) = false →
      ∃ items, jGet (JValue.obj
        [("type", JValue.str "object"),
         ("properties", JValue.obj [(".tag", JValue.obj [("type", JValue.str "string")])]),
         ("required", JValue.arr [JValue.str ".tag"]),
         ("oneOf", JValue.arr [JValue.obj
            [("type", JValue.str "object"),
             ("properties", JValue.obj [("b", JValue.obj [("type", JValue.str "string")])]),
             ("required", JValue.arr [JValue.str "b"])]]),
         ("discriminator", JValue.obj [("propertyName", JValue.str ".tag")])])
        "oneOf" = some (JValue.arr items) ∧
        jGet (JValue.obj
          [("type", JValue.str "object"),
           ("properties", JValue.obj [(".tag", JValue.obj [("type", JValue.str "string")])]),
           ("required", JValue.arr [JValue.str ".tag"]),
           ("oneOf", JValue.arr [JValue.obj
              [("type", JValue.str "object"),
               ("properties", JValue.obj [("b", JValue.obj [("type", JValue.str "string")])]),
               ("required", JValue.arr [JValue.str "b"])]]),
           ("discriminator", JValue.obj [("propertyName", JValue.str ".tag")])])
          "discriminator" = some (JValue.obj
            [("propertyName", JValue.str ".tag")]) ∧
        List.Forall₂ (fun (p : String × DataType) (j : JValue) =>
          ∃ s, type_to_schema_decl "ns" p.2 = Except.ok s ∧
            j = JValue.obj [("type", JValue.str "object"),
                            ("properties", JValue.obj [(p.1, s)]),
                            ("required", JValue.arr [JValue.str p.1])])
          ([("a", DataType.void), ("b", DataType.string_ none none)].filter
            (fun p => ! p.2.isVoid)) items) :=
  C8_union_schema "ns" "ns" "U"
    [("a", DataType.void), ("b", DataType.string_ none none)] _
    (by simp only [type_to_schema_def, _union_to_schema_def, variants_to_oneOf,
          type_to_schema_decl, DataType.userDefinedInfo, DataType.isVoid,
          _string_to_schema_def, dictSet, except_bind_ok, except_pure_eq,
          List.any_cons, List.any_nil, Bool.not_false, Bool.not_true,
          Bool.or_false, Bool.or_true, Bool.false_or, Bool.true_or,
          if_true, if_false] <;> rfl)

/-! ## C4: route translation -/

/-- Nested key lookup through a chain of JValue objects. -/
def jGetPath (v : JValue) : List String → Option JValue
  | [] => some v
  | k :: rest =>
      match jGet v k with
      | some w => jGetPath w rest
      | none => none

/-- C4 counterexample: a route whose argument, result and error types are
all Void. No requestBody key is produced, but the 409 response still has a
content key, holding the empty object, against the claim that the content
key is absent. -/
theorem C4_counterexample :
    route_to_path "ns" ⟨none, some DataType.void, some DataType.void,
        some DataType.void⟩ =
      Except.ok (JValue.obj [("post", JValue.obj
        [("description", JValue.str ""),
         ("responses", JValue.obj
           [("200", JValue.obj [("description", JValue.str ""),
                                ("content", JValue.obj [])]),
            ("409", JValue.obj [("description", JValue.str ""),
                                ("content", JValue.obj [])])])])]) ∧
    jGetPath (JValue.obj [("post", JValue.obj
        [("description", JValue.str ""),
         ("responses", JValue.obj
           [("200", JValue.obj [("description", JValue.str ""),
                                ("content", JValue.obj [])]),
            ("409", JValue.obj [("description", JValue.str ""),
                                ("content", JValue.obj [])])])])])
      ["post", "requestBody"] = none ∧
    jGetPath (JValue.obj [("post", JValue.obj
        [("description", JValue.str ""),
         ("responses", JValue.obj
           [("200", JValue.obj [("description", JValue.str ""),
                                ("content", JValue.obj [])]),
            ("409", JValue.obj [("description", JValue.str ""),
                                ("content", JValue.obj [])])])])])
      ["post", "responses", "409", "content"] = some (JValue.obj []) ∧
    ¬ jGetPath (JValue.obj [("post", JValue.obj
        [("description", JValue.str ""),
         ("responses", JValue.obj
           [("200", JValue.obj [("description", JValue.str ""),
                                ("content", JValue.obj [])]),
            ("409", JValue.obj [("description", JValue.str ""),
                                ("content", JValue.obj [])])])])])
      ["post", "responses", "409", "content"] = none := by
  refine ⟨rfl, rfl, rfl, by simp [jGetPath, jGet, dictGet]⟩

/-- The requestBody fragment of `route_to_path` is either empty or the
single required-with-content entry for the reference form of the argument
type. -/
theorem route_requestBody_shape (ns : String) (arg : Option DataType)
    (rb : List (String × JValue))
    (h : route_request_body ns arg = Except.ok rb) :
    rb = [] ∨ ∃ s, rb = [("requestBody", JValue.obj
      [("required", JValue.bool true),
       ("content", JValue.obj
         [("application/json", JValue.obj [("schema", s)])])])] := by
  rw [route_request_body.eq_def] at h
  cases arg with
  | none =>
      dsimp only at h
      exact Or.inl (Except.ok.inj h).symm
  | some t =>
      dsimp only at h
      cases hv : t.isVoid with
      | true =>
          rw [hv] at h
          simp only [eq_self_iff_true, if_true] at h
          exact Or.inl (Except.ok.inj h).symm
      | false =>
          rw [hv] at h
          simp only [Bool.false_eq_true, if_false] at h
          cases hs : type_to_schema_decl ns t with
          | error e =>
              rw [hs] at h
              exact absurd h (by simp)
          | ok s =>
              rw [hs] at h
              simp only [except_bind_ok, except_pure_eq,
                Except.ok.injEq] at h
              exact Or.inr ⟨s, h.symm⟩

/-- Inversion of a successful Except bind. -/
theorem except_bind_eq_ok {α β ε : Type _} {x : Except ε α} {f : α → Except ε β}
    {b : β} (h : x >>= f = Except.ok b) :
    ∃ a, x = Except.ok a ∧ f a = Except.ok b := by
  cases x with
  | error e => simp at h
  | ok a => exact ⟨a, rfl, by simpa using h⟩

/-- With an absent or Void argument type the requestBody splice is empty. -/
theorem route_request_body_void (ns : String) (arg : Option DataType)
    (h : arg = none ∨ arg = some DataType.void) :
    route_request_body ns arg = Except.ok [] := by
  rcases h with h | h <;> subst h <;> rfl

/-- With an absent or Void error type the 409 content is the empty object. -/
theorem route_error_content_void (ns : String) (err : Option DataType)
    (h : err = none ∨ err = some DataType.void) :
    route_error_content ns err = Except.ok (JValue.obj []) := by
  rcases h with h | h <;> subst h <;> rfl

/-- With a present non-Void argument type whose reference form succeeds,
the requestBody splice is the single required entry. -/
theorem route_request_body_present (ns : String) (t : DataType) (s : JValue)
    (hnv : t.isVoid = false) (hs : type_to_schema_decl ns t = Except.ok s) :
    route_request_body ns (some t) = Except.ok
      [("requestBody", JValue.obj
        [("required", JValue.bool true),
         ("content", JValue.obj
           [("application/json", JValue.obj [("schema", s)])])])] := by
  rw [route_request_body.eq_def]
  dsimp only
  rw [hnv]
  simp only [Bool.false_eq_true, if_false, hs, except_bind_ok, except_pure_eq]

/-- C4 amended: a route with absent or Void argument type yields a post
operation with no requestBody key, and a present non-Void argument type
yields the required application/json requestBody holding the reference
form of the argument type; a route with absent or Void error type yields
a 409 response whose content key is present and holds the empty object
(rather than the key being absent, as the claim stated). -/
theorem C4_amended_thm (ns : String) (route : ApiRoute) (v : JValue)
    (hv : route_to_path ns route = Except.ok v) :
    ((route.arg_data_type = none ∨ route.arg_data_type = some DataType.void) →
        jGetPath v ["post", "requestBody"] = none) ∧
    ((route.error_data_type = none ∨ route.error_data_type = some DataType.void) →
        jGetPath v ["post", "responses", "409", "content"] =
          some (JValue.obj [])) ∧
    (∀ t s, route.arg_data_type = some t → t.isVoid = false →
        type_to_schema_decl ns t = Except.ok s →
        jGetPath v ["post", "requestBody"] = some (JValue.obj
          [("required", JValue.bool true),
           ("content", JValue.obj
             [("application/json", JValue.obj [("schema", s)])])])) := by
  rw [route_to_path] at hv
  obtain ⟨rb, hA, hv⟩ := except_bind_eq_ok hv
  obtain ⟨c2, hB, hv⟩ := except_bind_eq_ok hv
  obtain ⟨c4, hC, hv⟩ := except_bind_eq_ok hv
  simp only [except_pure_eq, Except.ok.injEq] at hv
  subst hv
  refine ⟨?_, ?_, ?_⟩
  · intro harg
    rw [route_request_body_void ns route.arg_data_type harg] at hA
    have hrb := Except.ok.inj hA
    subst hrb
    simp [jGetPath, jGet, dictGet]
  · intro herr
    rw [route_error_content_void ns route.error_data_type herr] at hC
    have hc4 := Except.ok.inj hC
    subst hc4
    rcases route_requestBody_shape ns route.arg_data_type rb hA with hrb | ⟨s, hrb⟩ <;>
      subst hrb <;> simp [jGetPath, jGet, dictGet]
  · intro t s hat hnv hs
    rw [hat, route_request_body_present ns t s hnv hs] at hA
    have hrb := Except.ok.inj hA
    subst hrb
    simp [jGetPath, jGet, dictGet]

/-- C4 witness: the amended statement at a route with a present non-Void
argument type and Void result and error types. -/
theorem C4_amended_witness :
    ((some (DataType.struct_ "ns" "Arg" [] none []) = (none : Option DataType) ∨
        some (DataType.struct_ "ns" "Arg" [] none []) = some DataType.void) →
      jGetPath (JValue.obj [("post", JValue.obj
        [("description", JValue.str "d"),
         ("requestBody", JValue.obj
           [("required", JValue.bool true),
            ("content", JValue.obj
              [("application/json", JValue.obj
                [("schema", JValue.obj
                  [("$ref", JValue.str "ns.yaml#/components/schemas/Arg")])])])]),
         ("responses", JValue.obj
           [("200", JValue.obj [("description", JValue.str ""),
                                ("content", JValue.obj [])]),
            ("409", JValue.obj [("description", JValue.str ""),
                                ("content", JValue.obj [])])])])])
        ["post", "requestBody"] = none) ∧
    ((some DataType.void = (none : Option DataType) ∨
        some DataType.void = some DataType.void) →
      jGetPath (JValue.obj [("post", JValue.obj
        [("description", JValue.str "d"),
         ("requestBody", JValue.obj
           [("required", JValue.bool true),
            ("content", JValue.obj
              [("application/json", JValue.obj
                [("schema", JValue.obj
                  [("$ref", JValue.str "ns.yaml#/components/schemas/Arg")])])])]),
         ("responses", JValue.obj
           [("200", JValue.obj [("description", JValue.str ""),
                                ("content", JValue.obj [])]),
            ("409", JValue.obj [("description", JValue.str ""),
                                ("content", JValue.obj [])])])])])
        ["post", "responses", "409", "content"] = some (JValue.obj [])) ∧
    (∀ t s, some (DataType.struct_ "ns" "Arg" [] none []) = some t →
        t.isVoid = false →
        type_to_schema_decl "ns" t = Except.ok s →
      jGetPath (JValue.obj [("post", JValue.obj
        [("description", JValue.str "d"),
         ("requestBody", JValue.obj
           [("required", JValue.bool true),
            ("content", JValue.obj
              [("application/json", JValue.obj
                [("schema", JValue.obj
                  [("$ref", JValue.str "ns.yaml#/components/schemas/Arg")])])])]),
         ("responses", JValue.obj
           [("200", JValue.obj [("description", JValue.str ""),
                                ("content", JValue.obj [])]),
            ("409", JValue.obj [("description", JValue.str ""),
                                ("content", JValue.obj [])])])])])
        ["post", "requestBody"] = some (JValue.obj
          [("required", JValue.bool true),
           ("content", JValue.obj
             [("application/json", JValue.obj [("schema", s)])])])) :=
  C4_amended_thm "ns"
    ⟨some "d", some (DataType.struct_ "ns" "Arg" [] none []),
      some DataType.void, some DataType.void⟩ _
    (by simp only [route_to_path, route_request_body, route_result_content,
          route_error_content, type_to_schema_decl, DataType.userDefinedInfo,
          DataType.isVoid, except_bind_ok, except_pure_eq,
          Bool.false_eq_true, if_false, if_true] <;> rfl)

/-! ## C9: the master document path table -/

/-- C9: every (namespace, route name, version) triple contributes exactly
the entry keyed by its path name whose value is the pure reference
`ns.yaml#/paths/escaped_path_name`; every entry of the table has that
pure-reference form (no inlined operation bodies); and the path name is
`/ns/route` for version 1 and `/ns/route_vN` otherwise. -/
theorem C9_master_paths (namespaces : List (String × List (String × Nat))) :
    (∀ ns_name routes route_name version,
        (ns_name, routes) ∈ namespaces → (route_name, version) ∈ routes →
        (route_name_to_path_name ns_name route_name version,
         JValue.obj [("$ref", JValue.str
           (ns_name ++ ".yaml#/paths/" ++
            escape_path (route_name_to_path_name ns_name route_name version)))]) ∈
          master_paths namespaces) ∧
    (∀ e, e ∈ master_paths namespaces → ∃ ns_name route_name version,
        e = (route_name_to_path_name ns_name route_name version,
         JValue.obj [("$ref", JValue.str
           (ns_name ++ ".yaml#/paths/" ++
            escape_path (route_name_to_path_name ns_name route_name version)))])) ∧
    (∀ ns_name route_name version,
        route_name_to_path_name ns_name route_name version =
          if version = 1 then "/" ++ ns_name ++ "/" ++ route_name
          else "/" ++ ns_name ++ "/" ++ route_name ++ "_v" ++ toString version) := by
  refine ⟨?_, ?_, ?_⟩
  · intro ns_name routes route_name version h1 h2
    simp only [master_paths, List.mem_flatMap, List.mem_map]
    exact ⟨(ns_name, routes), h1, (route_name, version), h2, rfl⟩
  · intro e he
    simp only [master_paths, List.mem_flatMap, List.mem_map] at he
    obtain ⟨⟨n, rs⟩, _, ⟨rn, ver⟩, _, rfl⟩ := he
    exact ⟨n, rn, ver, rfl⟩
  · intro a b c
    rw [route_name_to_path_name]
    rcases eq_or_ne c 1 with hc | hc
    · subst hc
      simp
    · simp [hc, Nat.beq_eq_true_eq]

/-- C9 witness: a concrete two-namespace table contains the version-2
entry with the escaped reference. -/
theorem C9_master_paths_witness :
    (route_name_to_path_name "files" "upload" 2,
     JValue.obj [("$ref", JValue.str
       ("files" ++ ".yaml#/paths/" ++
        escape_path (route_name_to_path_name "files" "upload" 2)))]) ∈
      master_paths [("files", [("upload", 1), ("upload", 2)]),
                    ("sharing", [("list", 1)])] :=
  (C9_master_paths [("files", [("upload", 1), ("upload", 2)]),
                    ("sharing", [("list", 1)])]).1
    "files" [("upload", 1), ("upload", 2)] "upload" 2 (by simp) (by simp)
